import Mathlib

/-!
Verification of the CBioPortal-util alteration-aggregation engine
(`cbioportal_util.py`).

The Python program keeps its data in nested dictionaries:

* `CaseSet.cases : case id → gene → genetic profile id → raw value`
* `CaseSet.gene_meta_data : gene → metadata field → value`
* `CaseSet.summary : gene → summary record`

We embed Python dictionaries as insertion-ordered association lists with
unique keys (`PyDict`): lookup scans from the front, and item assignment
replaces an existing binding in place or appends a new one at the end,
exactly as CPython dictionaries behave.  Python exceptions (`KeyError`,
`ValueError` from `int()`, `ZeroDivisionError` from float division) are
embedded as an `Except PyError` result.  Python float division of two
integers is embedded as the exact fraction of the operands (`PyFloat`),
raising on a zero denominator as CPython does.
-/

/-- Association list with string keys: the embedding of a Python `dict`
(insertion-ordered, unique keys). -/
abbrev PyDict (β : Type) := List (String × β)

/-- Dictionary lookup `d[k]` (first binding wins; keys are unique in any
list built by `aset`). -/
def alookup {β : Type} : PyDict β → String → Option β
  | [], _ => none
  | (k, v) :: rest, key => if k = key then some v else alookup rest key

/-- Dictionary item assignment `d[k] = v`: replace the existing binding in
place, otherwise append at the end, as CPython dictionaries do. -/
def aset {β : Type} : PyDict β → String → β → PyDict β
  | [], key, val => [(key, val)]
  | (k, v) :: rest, key, val =>
      if k = key then (k, val) :: rest else (k, v) :: aset rest key val

/-- The keys of a dictionary, in iteration order. -/
def akeys {β : Type} (d : PyDict β) : List String := d.map Prod.fst

/-- Two-level assignment `d[k1][k2] = v`, creating `d[k1]` as an empty
dictionary first when absent (the `if not (gene in ...)` pattern of the
source). -/
def aset2 {β : Type} (d : PyDict (PyDict β)) (k1 k2 : String) (v : β) :
    PyDict (PyDict β) :=
  let d1 := (alookup d k1).getD []
  aset d k1 (aset d1 k2 v)

/-- Three-level assignment `d[k1][k2][k3] = v`, creating the intermediate
dictionaries when absent (the nested `if not (... in ...)` pattern of
`add_genetic_profile`). -/
def aset3 {β : Type} (d : PyDict (PyDict (PyDict β))) (k1 k2 k3 : String)
    (v : β) : PyDict (PyDict (PyDict β)) :=
  let d1 := (alookup d k1).getD []
  let d2 := (alookup d1 k2).getD []
  aset d k1 (aset d1 k2 (aset d2 k3 v))

/-- Three-level lookup `d[k1][k2][k3]` as an `Option`. -/
def alookup3 {β : Type} (d : PyDict (PyDict (PyDict β))) (k1 k2 k3 : String) :
    Option β :=
  (alookup d k1).bind fun d1 => (alookup d1 k2).bind fun d2 => alookup d2 k3

/-- The Python exceptions the engine can raise. -/
inductive PyError : Type where
  /-- Dictionary lookup of a missing key. -/
  | keyError : String → PyError
  /-- Failure of `int()` on a non-numeric string; the spec taxonomy calls
  this `MalformedValue`. -/
  | valueError : String → PyError
  /-- Float division by zero; the spec taxonomy calls this `NoCasesError`
  when the divisor is the case count. -/
  | zeroDivisionError : PyError
deriving DecidableEq

deriving instance DecidableEq for Except

/-- Python dictionary subscript `d[k]`: raises `KeyError` when absent. -/
def pyGet {β : Type} (d : PyDict β) (k : String) : Except PyError β :=
  match alookup d k with
  | none => .error (.keyError k)
  | some v => .ok v

/-- Result of CPython float division of two integers, kept as the exact
(unnormalized) fraction of the operands. -/
structure PyFloat : Type where
  num : Int
  den : Int
deriving DecidableEq

/-- CPython float division `float(a)/float(b)`: raises
`ZeroDivisionError` on a zero divisor, otherwise returns the exact
quotient. -/
def pyDiv (a b : Int) : Except PyError PyFloat :=
  if b = 0 then .error .zeroDivisionError else .ok ⟨a, b⟩

/-- Digit-string value: `some n` when the character list is a nonempty
string of decimal digits. -/
def digitsVal : List Char → Option Nat
  | [] => none
  | cs =>
      if cs.all Char.isDigit then
        some (cs.foldl (fun n c => n * 10 + (c.toNat - 48)) 0)
      else none

/-- Whitespace test used by the `int()` conversion's stripping. -/
def isSpaceChar (c : Char) : Bool := c = ' ' ∨ c = '\t' ∨ c = '\n' ∨ c = '\r'

/-- Strip surrounding whitespace from a character list. -/
def pyStrip (cs : List Char) : List Char :=
  ((cs.dropWhile isSpaceChar).reverse.dropWhile isSpaceChar).reverse

/-- The Python 2 `int()` conversion on a string: optional surrounding
whitespace, an optional sign, then a nonempty run of decimal digits;
anything else fails (raising `ValueError` at the call site). -/
def pyInt : String → Option Int
  | s =>
      match pyStrip s.toList with
      | '-' :: rest => (digitsVal rest).map fun n => -(n : Int)
      | '+' :: rest => (digitsVal rest).map fun n => (n : Int)
      | cs => (digitsVal cs).map fun n => (n : Int)

/-- The fixed `genetic_profiles` list of the `CaseSet` class: the copy
number profile first, the mutation profile second. -/
def genetic_profiles : List String := ["gbm_tcga_gistic", "gbm_tcga_mutations"]

/-- The per-case view `self.cases[case]` : gene → profile id → raw value. -/
abbrev CaseVal := PyDict (PyDict String)

/-- Embedding of `CaseSet.is_mutated(self, case, gene)`: looks up the value
for the mutation profile (`genetic_profiles[1]`) and returns `False` iff it
is the string `NaN` or (after `str`, the identity on these values) the
string `0`.  A missing key raises `KeyError`. -/
def is_mutated (case : CaseVal) (gene : String) : Except PyError Bool := do
  let genetic_profile_id := genetic_profiles.getD 1 ""
  let m ← pyGet case gene
  let profile_result ← pyGet m genetic_profile_id
  pure (if profile_result = "NaN" ∨ profile_result = "0" then false else true)

/-- Embedding of `CaseSet.is_copy_no_altered(self, case, gene)`: looks up
the value for the copy number profile (`genetic_profiles[0]`), converts it
with `int()` (raising `ValueError` on non-numeric content), and returns
`True` iff the integer is `+2` or `-2`.  A missing key raises `KeyError`. -/
def is_copy_no_altered (case : CaseVal) (gene : String) : Except PyError Bool := do
  let genetic_profile_id := genetic_profiles.getD 0 ""
  let m ← pyGet case gene
  let profile_result ← pyGet m genetic_profile_id
  match pyInt profile_result with
  | none => .error (.valueError profile_result)
  | some n => pure (if n = 2 ∨ n = -2 then true else false)

/-- One per-gene record stored in `self.summary[gene]` by `set_summary`:
the dictionary literal of the source, with the three integer counters, the
shared denominator, and the stored combined percentage. -/
structure GeneSummary : Type where
  total_case_count : Nat
  mutated_case_count : Nat
  copy_no_alteration_case_count : Nat
  multiple_alterations_case_count : Nat
  all_altered_percent : PyFloat
deriving DecidableEq

/-- The three counters of `set_summary`, initialized once before the gene
loop and threaded through it. -/
structure Counters : Type where
  mutated : Nat
  cna : Nat
  multi : Nat
deriving DecidableEq

/-- The shared class-level dictionaries of `CaseSet` (`cases`, `summary`,
`gene_meta_data`).  They are class attributes in the source, mutated in
place by every instance, so the embedding threads one `State` through all
operations of the process. -/
structure State : Type where
  cases : PyDict CaseVal
  summary : PyDict GeneSummary
  gene_meta_data : PyDict (PyDict String)
deriving DecidableEq

/-- The body of the case loop of `set_summary`: the
`if / elif / elif` chain over `is_copy_no_altered` and `is_mutated` for one
case, updating the counters.  The third branch re-tests
`is_copy_no_altered` (short-circuiting `and is_mutated`) exactly as the
source does. -/
def tally_case (case : CaseVal) (gene : String) (c : Counters) :
    Except PyError Counters := do
  let b1 ← is_copy_no_altered case gene
  if b1 then
    pure { c with cna := c.cna + 1 }
  else do
    let b2 ← is_mutated case gene
    if b2 then
      pure { c with mutated := c.mutated + 1 }
    else do
      let b3 ← is_copy_no_altered case gene
      if b3 then do
        let b4 ← is_mutated case gene
        if b4 then pure { c with multi := c.multi + 1 } else pure c
      else
        pure c

/-- The inner `for case in self.cases` loop of `set_summary` for one gene:
folds `tally_case` over every case of the matrix in iteration order. -/
def tally_gene (cases : PyDict CaseVal) (gene : String) (c : Counters) :
    Except PyError Counters :=
  cases.foldlM (fun acc entry => tally_case entry.2 gene acc) c

/-- One iteration of the `for gene in self.gene_meta_data` loop of
`set_summary`: tallies the gene's cases on top of the incoming counters,
computes the three percentages (the first two are bound to local variables
and discarded, but still raise on a zero denominator), and stores the
summary record for the gene. -/
def summary_step (cases : PyDict CaseVal) (total : Nat)
    (acc : Counters × PyDict GeneSummary) (entry : String × PyDict String) :
    Except PyError (Counters × PyDict GeneSummary) := do
  let c ← tally_gene cases entry.1 acc.1
  let _mutated_case_percent ← pyDiv (c.mutated : Int) (total : Int)
  let _copy_no_alteration_percent ← pyDiv (c.cna : Int) (total : Int)
  let all_altered_percent ←
    pyDiv ((c.cna : Int) + (c.mutated : Int) - (c.multi : Int)) (total : Int)
  pure (c, aset acc.2 entry.1
    ⟨total, c.mutated, c.cna, c.multi, all_altered_percent⟩)

/-- Embedding of `CaseSet.set_summary(self)`: sets
`total_case_count = len(self.cases)`, initializes the three counters once,
and runs the gene loop, threading the counters (they are never reset
between genes) and updating the shared `summary` dictionary. -/
def set_summary (st : State) : Except PyError State := do
  let total := st.cases.length
  let res ← st.gene_meta_data.foldlM (summary_step st.cases total)
    (⟨0, 0, 0⟩, st.summary)
  pure { st with summary := res.2 }

/-- Embedding of `CaseSet.get_mutation_percent(self, gene)`. -/
def get_mutation_percent (st : State) (gene : String) :
    Except PyError PyFloat := do
  let s ← pyGet st.summary gene
  pyDiv (s.mutated_case_count : Int) (s.total_case_count : Int)

/-- Embedding of `CaseSet.get_copy_no_altered_percent(self, gene)`. -/
def get_copy_no_altered_percent (st : State) (gene : String) :
    Except PyError PyFloat := do
  let s ← pyGet st.summary gene
  pyDiv (s.copy_no_alteration_case_count : Int) (s.total_case_count : Int)

/-- Embedding of `CaseSet.get_all_altered_percent(self, gene)`. -/
def get_all_altered_percent (st : State) (gene : String) :
    Except PyError PyFloat := do
  let s ← pyGet st.summary gene
  pyDiv ((s.copy_no_alteration_case_count : Int) +
    (s.mutated_case_count : Int) - (s.multiple_alterations_case_count : Int))
    (s.total_case_count : Int)

/-- A parsed data row of one profile payload, as produced by
`csv.DictReader`: field name → cell value, with the gene name under the
`COMMON` field. -/
abbrev Row := List (String × String)

/-- The `meta_data_fields` list of `add_genetic_profile`. -/
def meta_data_fields : List String := ["COMMON", "GENE_ID"]

/-- The body of the `for row in reader` loop of `add_genetic_profile`:
reads `row['COMMON']` (raising `KeyError` when absent), then iterates the
row's fields, routing recognized metadata fields into `gene_meta_data` and
every other field, treated as a case identifier, into
`cases[field][gene][genetic_profile_id]`. -/
def add_row (st : State) (genetic_profile_id : String) (row : Row) :
    Except PyError State := do
  let gene ← pyGet row "COMMON"
  pure (row.foldl (fun s fv =>
    if fv.1 ∈ meta_data_fields then
      { s with gene_meta_data := aset2 s.gene_meta_data gene fv.1 fv.2 }
    else
      { s with cases := aset3 s.cases fv.1 gene genetic_profile_id fv.2 }) st)

/-- Embedding of `CaseSet.add_genetic_profile` after parsing: merges the
parsed rows of one profile payload into the shared dictionaries.  (The
HTTP fetch and the comment-header skipping produce the rows and are out of
scope; the payload is passed in parsed form.) -/
def add_genetic_profile (st : State) (genetic_profile_id : String)
    (rows : List Row) : Except PyError State :=
  rows.foldlM (fun s row => add_row s genetic_profile_id row) st

/-- Embedding of `CaseSet.__init__`: one constructor call merges the
payload fetched for each profile of `genetic_profiles`, in order (the copy
number profile, then the mutation profile), into the shared class-level
state. -/
def CaseSet.init (st : State) (gisticRows mutationRows : List Row) :
    Except PyError State := do
  let s1 ← add_genetic_profile st (genetic_profiles.getD 0 "") gisticRows
  add_genetic_profile s1 (genetic_profiles.getD 1 "") mutationRows

/-- The last value a single row writes to the case column `c` of the case
matrix (`none` when the row does not write that column): the column must
not be a metadata field, and a duplicate column keeps the last cell, as
the field loop of `add_row` does. -/
def rowWrite (row : Row) (c : String) : Option String :=
  row.foldl (fun acc fv =>
    if fv.1 = c ∧ ¬ fv.1 ∈ meta_data_fields then some fv.2 else acc) none

/-- The last value a payload writes to cell `(c, g)` of the case matrix
(`none` when no row with gene `g` writes column `c`): later rows win, as
the row loop of `add_genetic_profile` does. -/
def writeVal (rows : List Row) (c g : String) : Option String :=
  rows.foldl (fun acc row =>
    if alookup row "COMMON" = some g then (rowWrite row c).or acc else acc)
    none

/-- Claim C4: for every case/gene pair with a value present under the copy
number profile whose content parses as an integer, `is_copy_no_altered`
returns `true` iff that integer is `+2` or `-2`, and `false` for any other
integer. -/
theorem copy_no_altered_iff_pm_two (case : CaseVal) (gene : String)
    (m : PyDict String) (v : String) (n : Int)
    (hg : alookup case gene = some m)
    (hv : alookup m "gbm_tcga_gistic" = some v)
    (hn : pyInt v = some n) :
    (is_copy_no_altered case gene = .ok true ↔ (n = 2 ∨ n = -2)) ∧
    (is_copy_no_altered case gene = .ok false ↔ ¬ (n = 2 ∨ n = -2)) := by
  rw [is_copy_no_altered]
  simp only [genetic_profiles, List.getD, List.get?, Option.getD_some, bind,
    Except.bind, pyGet, hg, hv, hn]
  by_cases h : n = 2 ∨ n = -2 <;> simp [h, pure, Except.pure]

/-- Witness for C4 at a concrete input: the copy number call string `2`. -/
theorem copy_no_altered_iff_pm_two_witness :
    alookup [("TP53", [("gbm_tcga_gistic", "2")])] "TP53" =
      some [("gbm_tcga_gistic", "2")] ∧
    alookup [("gbm_tcga_gistic", "2")] "gbm_tcga_gistic" = some "2" ∧
    pyInt "2" = some 2 ∧
    ((is_copy_no_altered [("TP53", [("gbm_tcga_gistic", "2")])] "TP53" =
        .ok true ↔ ((2 : Int) = 2 ∨ (2 : Int) = -2)) ∧
     (is_copy_no_altered [("TP53", [("gbm_tcga_gistic", "2")])] "TP53" =
        .ok false ↔ ¬ ((2 : Int) = 2 ∨ (2 : Int) = -2))) :=
  ⟨by decide, by decide, by decide,
    copy_no_altered_iff_pm_two [("TP53", [("gbm_tcga_gistic", "2")])] "TP53"
      [("gbm_tcga_gistic", "2")] "2" 2 (by decide) (by decide) (by decide)⟩

/-- Claim C5: for every case/gene pair with a value present under the
mutation profile, `is_mutated` returns `false` iff the raw value is the
literal string `NaN` or the string `0` (the value after `str` coercion,
the identity on these string cells), and `true` for every other value. -/
theorem mutated_iff_not_nan_zero (case : CaseVal) (gene : String)
    (m : PyDict String) (v : String)
    (hg : alookup case gene = some m)
    (hv : alookup m "gbm_tcga_mutations" = some v) :
    (is_mutated case gene = .ok false ↔ (v = "NaN" ∨ v = "0")) ∧
    (is_mutated case gene = .ok true ↔ ¬ (v = "NaN" ∨ v = "0")) := by
  rw [is_mutated]
  simp only [genetic_profiles, List.getD, List.get?, Option.getD_some, bind,
    Except.bind, pyGet, hg, hv]
  by_cases h : v = "NaN" ∨ v = "0" <;> simp [h, pure, Except.pure]

/-- Witness for C5 at a concrete input: the mutation descriptor `MUT1`. -/
theorem mutated_iff_not_nan_zero_witness :
    alookup [("TP53", [("gbm_tcga_mutations", "MUT1")])] "TP53" =
      some [("gbm_tcga_mutations", "MUT1")] ∧
    alookup [("gbm_tcga_mutations", "MUT1")] "gbm_tcga_mutations" =
      some "MUT1" ∧
    ((is_mutated [("TP53", [("gbm_tcga_mutations", "MUT1")])] "TP53" =
        .ok false ↔ ("MUT1" = "NaN" ∨ "MUT1" = "0")) ∧
     (is_mutated [("TP53", [("gbm_tcga_mutations", "MUT1")])] "TP53" =
        .ok true ↔ ¬ ("MUT1" = "NaN" ∨ "MUT1" = "0"))) :=
  ⟨by decide, by decide,
    mutated_iff_not_nan_zero [("TP53", [("gbm_tcga_mutations", "MUT1")])]
      "TP53" [("gbm_tcga_mutations", "MUT1")] "MUT1" (by decide) (by decide)⟩

/-- Claim C8: a present copy number value whose content does not parse as
an integer makes `is_copy_no_altered` raise `ValueError` (the spec's
`MalformedValue`) rather than return a boolean. -/
theorem copy_no_altered_malformed (case : CaseVal) (gene : String)
    (m : PyDict String) (v : String)
    (hg : alookup case gene = some m)
    (hv : alookup m "gbm_tcga_gistic" = some v)
    (hn : pyInt v = none) :
    is_copy_no_altered case gene = .error (.valueError v) := by
  rw [is_copy_no_altered]
  simp only [genetic_profiles, List.getD, List.get?, Option.getD_some, bind,
    Except.bind, pyGet, hg, hv, hn]

/-- Witness for C8 at a concrete input: non-numeric cell text `abc`. -/
theorem copy_no_altered_malformed_witness :
    alookup [("TP53", [("gbm_tcga_gistic", "abc")])] "TP53" =
      some [("gbm_tcga_gistic", "abc")] ∧
    alookup [("gbm_tcga_gistic", "abc")] "gbm_tcga_gistic" = some "abc" ∧
    pyInt "abc" = none ∧
    is_copy_no_altered [("TP53", [("gbm_tcga_gistic", "abc")])] "TP53" =
      .error (.valueError "abc") :=
  ⟨by decide, by decide, by decide,
    copy_no_altered_malformed [("TP53", [("gbm_tcga_gistic", "abc")])]
      "TP53" [("gbm_tcga_gistic", "abc")] "abc" (by decide) (by decide)
      (by decide)⟩

/-- Claim C2, counterexample: on a case whose gene mapping has no value for
the requested profile kind, classification does not return `false`; both
classifiers raise `KeyError`, so the claim that a missing value is treated
as not altered/not mutated fails on the code. -/
theorem missing_value_counterexample :
    is_mutated [("TP53", [])] "TP53" =
      .error (.keyError "gbm_tcga_mutations") ∧
    ¬ is_mutated [("TP53", [])] "TP53" = .ok false ∧
    is_copy_no_altered [("TP53", [])] "TP53" =
      .error (.keyError "gbm_tcga_gistic") ∧
    ¬ is_copy_no_altered [("TP53", [])] "TP53" = .ok false := by decide

/-- Claim C2 as amended: when the value for a profile kind is absent from
the case's per-gene mapping, the corresponding classifier raises
`KeyError` for that profile id instead of returning `false`. -/
theorem missing_value_raises (case : CaseVal) (gene : String)
    (m : PyDict String) (hg : alookup case gene = some m) :
    (alookup m "gbm_tcga_mutations" = none →
      is_mutated case gene = .error (.keyError "gbm_tcga_mutations")) ∧
    (alookup m "gbm_tcga_gistic" = none →
      is_copy_no_altered case gene = .error (.keyError "gbm_tcga_gistic")) := by
  constructor
  · intro hmiss
    rw [is_mutated]
    simp only [genetic_profiles, List.getD, List.get?, Option.getD_some,
      bind, Except.bind, pyGet, hg, hmiss]
  · intro hmiss
    rw [is_copy_no_altered]
    simp only [genetic_profiles, List.getD, List.get?, Option.getD_some,
      bind, Except.bind, pyGet, hg, hmiss]

/-- Witness for the amended C2 at a concrete input: a gene with an empty
profile mapping. -/
theorem missing_value_raises_witness :
    alookup [("TP53", ([] : PyDict String))] "TP53" = some [] ∧
    is_mutated [("TP53", [])] "TP53" =
      .error (.keyError "gbm_tcga_mutations") ∧
    is_copy_no_altered [("TP53", [])] "TP53" =
      .error (.keyError "gbm_tcga_gistic") :=
  ⟨by decide,
    (missing_value_raises [("TP53", [])] "TP53" [] (by decide)).1
      (by decide),
    (missing_value_raises [("TP53", [])] "TP53" [] (by decide)).2
      (by decide)⟩

/-- Destructuring of a successful `Except` bind. -/
theorem exceptBind_ok {eps alp bet : Type} {x : Except eps alp}
    {f : alp → Except eps bet} {b : bet} (h : (x >>= f) = .ok b) :
    ∃ a, x = .ok a ∧ f a = .ok b := by
  cases x with
  | error e => exact absurd h (by simp [bind, Except.bind])
  | ok a => exact ⟨a, rfl, by simpa [bind, Except.bind] using h⟩

theorem alookup_aset_self {bet : Type} (d : PyDict bet) (k : String) (v : bet) :
    alookup (aset d k v) k = some v := by
  induction d with
  | nil => simp [aset, alookup]
  | cons e rest ih =>
      obtain ⟨k1, v1⟩ := e
      by_cases h : k1 = k <;> simp [aset, alookup, h, ih]

theorem alookup_aset_ne {bet : Type} (d : PyDict bet) (k k1 : String) (v : bet)
    (h : k1 ≠ k) : alookup (aset d k v) k1 = alookup d k1 := by
  induction d with
  | nil =>
      simp only [aset, alookup]
      rw [if_neg (fun he => h he.symm)]
  | cons e rest ih =>
      obtain ⟨k2, v2⟩ := e
      simp only [aset]
      by_cases h2 : k2 = k
      · rw [if_pos h2]
        simp only [alookup]
        rw [if_neg (fun he => h (h2 ▸ he).symm),
          if_neg (fun he => h (h2 ▸ he).symm)]
      · rw [if_neg h2]
        simp only [alookup]
        by_cases h3 : k2 = k1
        · rw [if_pos h3, if_pos h3]
        · rw [if_neg h3, if_neg h3]
          exact ih

theorem tally_case_multi {cv : CaseVal} {g : String} {c c1 : Counters}
    (h : tally_case cv g c = .ok c1) : c1.multi = c.multi := by
  rw [tally_case] at h
  obtain ⟨b1, hb1, h⟩ := exceptBind_ok h
  cases b1
  · simp only [Bool.false_eq_true, if_false] at h
    obtain ⟨b2, hb2, h⟩ := exceptBind_ok h
    cases b2
    · simp only [Bool.false_eq_true, if_false] at h
      obtain ⟨b3, hb3, h⟩ := exceptBind_ok h
      have : b3 = false := by
        have := hb1.symm.trans hb3
        exact (Except.ok.injEq _ _).mp this |>.symm
      subst this
      simp only [Bool.false_eq_true, if_false, pure, Except.pure,
        Except.ok.injEq] at h
      subst h; rfl
    · simp only [if_true, pure, Except.pure, Except.ok.injEq] at h
      subst h; rfl
  · simp only [if_true, pure, Except.pure, Except.ok.injEq] at h
    subst h; rfl

theorem tally_fold_multi {g : String} (l : PyDict CaseVal) :
    ∀ (c c1 : Counters),
      l.foldlM (fun acc entry => tally_case entry.2 g acc) c = .ok c1 →
      c1.multi = c.multi := by
  induction l with
  | nil =>
      intro c c1 h
      simp only [List.foldlM_nil, pure, Except.pure, Except.ok.injEq] at h
      rw [h]
  | cons e rest ih =>
      intro c c1 h
      rw [List.foldlM_cons] at h
      obtain ⟨cm, hm, h⟩ := exceptBind_ok h
      exact (ih cm c1 h).trans (tally_case_multi hm)

theorem tally_gene_multi {cs : PyDict CaseVal} {g : String} {c c1 : Counters}
    (h : tally_gene cs g c = .ok c1) : c1.multi = c.multi := by
  rw [tally_gene] at h
  exact tally_fold_multi cs c c1 h

theorem summary_step_ok {cs : PyDict CaseVal} {total : Nat}
    {acc res : Counters × PyDict GeneSummary}
    {entry : String × PyDict String}
    (h : summary_step cs total acc entry = .ok res) :
    ∃ c, tally_gene cs entry.1 acc.1 = .ok c ∧ (total : Int) ≠ 0 ∧
      res = (c, aset acc.2 entry.1
        ⟨total, c.mutated, c.cna, c.multi,
         ⟨(c.cna : Int) + (c.mutated : Int) - (c.multi : Int), (total : Int)⟩⟩) := by
  rw [summary_step] at h
  obtain ⟨c, hc, h⟩ := exceptBind_ok h
  obtain ⟨p1, hp1, h⟩ := exceptBind_ok h
  obtain ⟨p2, hp2, h⟩ := exceptBind_ok h
  obtain ⟨p3, hp3, h⟩ := exceptBind_ok h
  have hne : (total : Int) ≠ 0 := by
    intro h0
    rw [pyDiv, if_pos h0] at hp1
    exact absurd hp1 (by simp)
  refine ⟨c, hc, hne, ?_⟩
  rw [pyDiv, if_neg hne] at hp3
  have hp3e : p3 = ⟨(c.cna : Int) + (c.mutated : Int) - (c.multi : Int), (total : Int)⟩ :=
    ((Except.ok.injEq _ _).mp hp3).symm
  subst hp3e
  simp only [pure, Except.pure, Except.ok.injEq] at h
  exact h.symm

theorem summary_fold_frame {cs : PyDict CaseVal} {total : Nat} {g : String} :
    ∀ (l : PyDict (PyDict String)) (acc res : Counters × PyDict GeneSummary),
      l.foldlM (summary_step cs total) acc = .ok res →
      ¬ g ∈ akeys l →
      alookup res.2 g = alookup acc.2 g := by
  intro l
  induction l with
  | nil =>
      intro acc res h hmem
      simp only [List.foldlM_nil, pure, Except.pure, Except.ok.injEq] at h
      rw [← h]
  | cons e rest ih =>
      intro acc res h hmem
      rw [List.foldlM_cons] at h
      obtain ⟨acc1, h1, h2⟩ := exceptBind_ok h
      obtain ⟨c, hc, hne, hres⟩ := summary_step_ok h1
      have hg1 : g ≠ e.1 := by
        intro hgeq
        exact hmem (by simp [akeys, hgeq])
      have hrest : ¬ g ∈ akeys rest := by
        intro hgr
        exact hmem (by simp [akeys] at hgr ⊢; exact Or.inr hgr)
      rw [ih acc1 res h2 hrest, hres]
      exact alookup_aset_ne acc.2 e.1 g _ hg1

theorem summary_fold_multi_zero {cs : PyDict CaseVal} {total : Nat} :
    ∀ (l : PyDict (PyDict String)) (acc res : Counters × PyDict GeneSummary),
      l.foldlM (summary_step cs total) acc = .ok res →
      acc.1.multi = 0 →
      res.1.multi = 0 ∧
      ∀ g, g ∈ akeys l → ∀ s, alookup res.2 g = some s →
        s.multiple_alterations_case_count = 0 := by
  intro l
  induction l with
  | nil =>
      intro acc res h h0
      simp only [List.foldlM_nil, pure, Except.pure, Except.ok.injEq] at h
      subst h
      exact ⟨h0, by simp [akeys]⟩
  | cons e rest ih =>
      intro acc res h h0
      rw [List.foldlM_cons] at h
      obtain ⟨acc1, h1, h2⟩ := exceptBind_ok h
      obtain ⟨c, hc, hne, hres⟩ := summary_step_ok h1
      have hcm : c.multi = 0 := (tally_gene_multi hc).trans h0
      have hacc1 : acc1.1.multi = 0 := by rw [hres]; exact hcm
      obtain ⟨hres0, hmem⟩ := ih acc1 res h2 hacc1
      refine ⟨hres0, ?_⟩
      intro g hg s hs
      by_cases hgr : g ∈ akeys rest
      · exact hmem g hgr s hs
      · have hge : g = e.1 := by
          simp [akeys] at hg
          cases hg with
          | inl h => exact h
          | inr h => exact absurd (by simp [akeys]; exact h) hgr
        rw [summary_fold_frame rest acc1 res h2 hgr, hres, hge,
          alookup_aset_self] at hs
        have := (Option.some.injEq _ _).mp hs
        rw [← this, hcm]

/-- Claim C1: whenever `set_summary` succeeds (so classification succeeded
for every case/gene pair it evaluated), the summary record stored for every
gene of the run has `multiple_alterations_case_count = 0`: the third branch
of the accumulation re-tests `is_copy_no_altered` after an `elif` that
already required it to be false, so the multiple-alterations counter is
never incremented. -/
theorem multiple_alterations_always_zero (st st' : State)
    (h : set_summary st = .ok st') (g : String)
    (hg : g ∈ akeys st.gene_meta_data) (s : GeneSummary)
    (hs : alookup st'.summary g = some s) :
    s.multiple_alterations_case_count = 0 := by
  rw [set_summary] at h
  obtain ⟨res, hres, h⟩ := exceptBind_ok h
  simp only [pure, Except.pure, Except.ok.injEq] at h
  subst h
  exact (summary_fold_multi_zero st.gene_meta_data
    (⟨0, 0, 0⟩, st.summary) res hres rfl).2 g hg s hs

/-- Concrete run for the C1 witness: one case, two genes, the second
gene both copy-number tested and mutated. -/
def exStC1 : State :=
  ⟨[("c1", [("g1", [("gbm_tcga_gistic", "2")]),
            ("g2", [("gbm_tcga_mutations", "MUT1"),
                    ("gbm_tcga_gistic", "0")])])], [],
   [("g1", []), ("g2", [])]⟩

/-- The summarized state of `exStC1`. -/
def exStC1out : State :=
  ⟨[("c1", [("g1", [("gbm_tcga_gistic", "2")]),
            ("g2", [("gbm_tcga_mutations", "MUT1"),
                    ("gbm_tcga_gistic", "0")])])],
   [("g1", ⟨1, 0, 1, 0, ⟨1, 1⟩⟩), ("g2", ⟨1, 1, 1, 0, ⟨2, 1⟩⟩)],
   [("g1", []), ("g2", [])]⟩

/-- Witness for C1 at a concrete run. -/
theorem multiple_alterations_always_zero_witness :
    set_summary exStC1 = .ok exStC1out ∧
    "g2" ∈ akeys exStC1.gene_meta_data ∧
    alookup exStC1out.summary "g2" = some ⟨1, 1, 1, 0, ⟨2, 1⟩⟩ ∧
    (⟨1, 1, 1, 0, ⟨2, 1⟩⟩ : GeneSummary).multiple_alterations_case_count = 0 :=
  ⟨by decide, by decide, by decide,
    multiple_alterations_always_zero exStC1 exStC1out (by decide) "g2"
      (by decide) ⟨1, 1, 1, 0, ⟨2, 1⟩⟩ (by decide)⟩

/-- Claim C6: summarizing a case matrix with zero cases while the
percentage derivation is reached (at least one gene to iterate) raises the
division-by-zero error (`ZeroDivisionError`, the spec taxonomy's
`NoCasesError`) instead of returning rates. -/
theorem zero_cases_raises (st : State) (hc : st.cases = [])
    (hg : st.gene_meta_data ≠ []) :
    set_summary st = .error .zeroDivisionError := by
  obtain ⟨e, l, hgl⟩ : ∃ e l, st.gene_meta_data = e :: l := by
    cases hgm : st.gene_meta_data with
    | nil => exact absurd hgm hg
    | cons e l => exact ⟨e, l, rfl⟩
  rw [set_summary, hc, hgl, List.foldlM_cons]
  have hstep : summary_step [] ([] : PyDict CaseVal).length
      (⟨0, 0, 0⟩, st.summary) e = .error .zeroDivisionError := by
    rw [summary_step]
    simp [tally_gene, pyDiv, bind, Except.bind, pure, Except.pure]
  rw [hstep]
  simp [bind, Except.bind]

/-- Witness for C6: an empty case matrix with one known gene. -/
theorem zero_cases_raises_witness :
    (⟨[], [], [("g1", [])]⟩ : State).cases = [] ∧
    (⟨[], [], [("g1", [])]⟩ : State).gene_meta_data ≠ [] ∧
    set_summary ⟨[], [], [("g1", [])]⟩ = .error .zeroDivisionError :=
  ⟨by decide, by decide,
    zero_cases_raises ⟨[], [], [("g1", [])]⟩ (by decide) (by decide)⟩

/-- Claim C3 fails on the code (code bug): with two genes and one case in
which both genes are copy-number altered, the counters are not reset
between genes, so the summary stored for the second gene has
`copy_no_alteration_case_count = 2` against `total_case_count = 1`, and the
derived copy-number rate is `2/1 > 1`. -/
theorem count_exceeds_total_failing :
    set_summary
        ⟨[("c1", [("g1", [("gbm_tcga_gistic", "2")]),
                  ("g2", [("gbm_tcga_gistic", "2")])])], [],
         [("g1", []), ("g2", [])]⟩ =
      .ok ⟨[("c1", [("g1", [("gbm_tcga_gistic", "2")]),
                    ("g2", [("gbm_tcga_gistic", "2")])])],
           [("g1", ⟨1, 0, 1, 0, ⟨1, 1⟩⟩), ("g2", ⟨1, 0, 2, 0, ⟨2, 1⟩⟩)],
           [("g1", []), ("g2", [])]⟩ ∧
    (⟨1, 0, 2, 0, ⟨2, 1⟩⟩ : GeneSummary).copy_no_alteration_case_count >
      (⟨1, 0, 2, 0, ⟨2, 1⟩⟩ : GeneSummary).total_case_count ∧
    get_copy_no_altered_percent
        ⟨[("c1", [("g1", [("gbm_tcga_gistic", "2")]),
                  ("g2", [("gbm_tcga_gistic", "2")])])],
         [("g1", ⟨1, 0, 1, 0, ⟨1, 1⟩⟩), ("g2", ⟨1, 0, 2, 0, ⟨2, 1⟩⟩)],
         [("g1", []), ("g2", [])]⟩ "g2" = .ok ⟨2, 1⟩ ∧
    (⟨2, 1⟩ : PyFloat).num > (⟨2, 1⟩ : PyFloat).den := by decide

/-- Lookup after a three-level assignment: the assigned cell reads the new
value, every other cell is unchanged. -/
theorem alookup3_aset3 {bet : Type} (d : PyDict (PyDict (PyDict bet)))
    (k1 k2 k3 c g k : String) (v : bet) :
    alookup3 (aset3 d k1 k2 k3 v) c g k =
      if c = k1 ∧ g = k2 ∧ k = k3 then some v else alookup3 d c g k := by
  rw [aset3, alookup3, alookup3]
  by_cases h1 : c = k1
  · subst h1
    rw [alookup_aset_self]
    simp only [Option.some_bind]
    by_cases h2 : g = k2
    · subst h2
      rw [alookup_aset_self]
      simp only [Option.some_bind]
      by_cases h3 : k = k3
      · subst h3
        rw [alookup_aset_self]
        simp
      · rw [alookup_aset_ne _ _ _ _ h3]
        simp only [true_and, h3, and_false, if_false]
        cases hd : alookup d c with
        | none => simp [hd, alookup]
        | some d1 =>
            simp only [hd, Option.getD_some, Option.some_bind]
            cases hd1 : alookup d1 g with
            | none => simp [hd1, alookup]
            | some d2 => simp [hd1]
    · rw [alookup_aset_ne _ _ _ _ h2]
      simp only [true_and, h2, false_and, if_false]
      cases hd : alookup d c with
      | none => simp [hd, alookup]
      | some d1 => simp [hd]
  · rw [alookup_aset_ne _ _ _ _ h1]
    simp [h1]


/-- The case-column fold of a row, started from any accumulator, equals
its from-`none` run preferred over the accumulator. -/
theorem write_fold_or (c : String) (row : Row) :
    ∀ (acc : Option String),
      row.foldl (fun a fv =>
        if fv.1 = c ∧ ¬ fv.1 ∈ meta_data_fields then some fv.2 else a) acc =
      (row.foldl (fun a fv =>
        if fv.1 = c ∧ ¬ fv.1 ∈ meta_data_fields then some fv.2 else a)
        none).or acc := by
  induction row with
  | nil => intro acc; simp
  | cons fv rest ih =>
      intro acc
      rw [List.foldl_cons, List.foldl_cons]
      by_cases h : fv.1 = c ∧ ¬ fv.1 ∈ meta_data_fields
      · rw [if_pos h, if_pos h, ih (some fv.2), Option.or_assoc,
          Option.or_some]
      · rw [if_neg h, if_neg h]
        exact ih acc

/-- The case-column fold of a row in terms of `rowWrite`. -/
theorem rowWrite_or (c : String) (row : Row) (acc : Option String) :
    row.foldl (fun a fv =>
      if fv.1 = c ∧ ¬ fv.1 ∈ meta_data_fields then some fv.2 else a) acc =
    (rowWrite row c).or acc :=
  write_fold_or c row acc


/-- Effect of one row's field loop on the case matrix: a cell in the row's
gene and the current profile reads the row's last write for that case
column, falling back to (and otherwise equal to) the previous matrix. -/
theorem row_foldl_lookup (pid gene c g k : String) (row : Row) :
    ∀ (st : State),
      alookup3 ((row.foldl (fun s fv =>
          if fv.1 ∈ meta_data_fields then
            { s with gene_meta_data := aset2 s.gene_meta_data gene fv.1 fv.2 }
          else
            { s with cases := aset3 s.cases fv.1 gene pid fv.2 }) st).cases)
        c g k =
      if g = gene ∧ k = pid then
        (rowWrite row c).or (alookup3 st.cases c g k)
      else alookup3 st.cases c g k := by
  induction row with
  | nil =>
      intro st
      simp [rowWrite]
  | cons fv rest ih =>
      intro st
      rw [List.foldl_cons, ih]
      have hrw : rowWrite (fv :: rest) c =
          (rowWrite rest c).or
            (if fv.1 = c ∧ ¬ fv.1 ∈ meta_data_fields then some fv.2
             else none) := by
        rw [rowWrite, List.foldl_cons]
        exact write_fold_or c rest _
      by_cases hmeta : fv.1 ∈ meta_data_fields
      · rw [if_pos hmeta, hrw]
        simp [hmeta]
      · rw [if_neg hmeta, hrw, alookup3_aset3]
        by_cases hcond : g = gene ∧ k = pid
        · rw [if_pos hcond, if_pos hcond]
          by_cases hc : c = fv.1
          · rw [if_pos ⟨hc, hcond.1, hcond.2⟩,
              if_pos ⟨hc.symm, hmeta⟩, Option.or_assoc, Option.or_some]
          · rw [if_neg (fun hall => hc hall.1),
              if_neg (fun hp => hc hp.1.symm), Option.or_none]
        · rw [if_neg hcond, if_neg hcond,
            if_neg (fun hall => hcond ⟨hall.2.1, hall.2.2⟩)]

/-- The payload fold, started from any accumulator, equals its
from-`none` run preferred over the accumulator. -/
theorem writeVal_fold_or (c g : String) (rows : List Row) :
    ∀ (acc : Option String),
      rows.foldl (fun a row =>
        if alookup row "COMMON" = some g then (rowWrite row c).or a else a)
        acc =
      (writeVal rows c g).or acc := by
  induction rows with
  | nil => intro acc; simp [writeVal]
  | cons row rest ih =>
      intro acc
      have hw : writeVal (row :: rest) c g =
          (writeVal rest c g).or
            (if alookup row "COMMON" = some g then rowWrite row c
             else none) := by
        rw [writeVal, List.foldl_cons]
        by_cases h : alookup row "COMMON" = some g
        · rw [if_pos h, if_pos h, Option.or_none]
          exact ih _
        · rw [if_neg h, if_neg h, ih none]
      rw [List.foldl_cons, ih, hw]
      by_cases h : alookup row "COMMON" = some g
      · rw [if_pos h, if_pos h, Option.or_assoc]
      · rw [if_neg h, if_neg h, Option.or_none]

/-- Destructuring of a successful `add_row`: the row has a `COMMON` field
and the result is the field fold. -/
theorem add_row_ok {st st' : State} {pid : String} {row : Row}
    (h : add_row st pid row = .ok st') :
    ∃ gene, alookup row "COMMON" = some gene ∧
      st' = row.foldl (fun s fv =>
        if fv.1 ∈ meta_data_fields then
          { s with gene_meta_data := aset2 s.gene_meta_data gene fv.1 fv.2 }
        else
          { s with cases := aset3 s.cases fv.1 gene pid fv.2 }) st := by
  rw [add_row] at h
  obtain ⟨gene, hg, h⟩ := exceptBind_ok h
  refine ⟨gene, ?_, ?_⟩
  · rw [pyGet] at hg
    cases hcm : alookup row "COMMON" with
    | none => rw [hcm] at hg; exact absurd hg (by simp)
    | some x =>
        rw [hcm] at hg
        rw [(Except.ok.injEq _ _).mp hg]
  · simp only [pure, Except.pure, Except.ok.injEq] at h
    exact h.symm

/-- Effect of merging one payload on the case matrix: cells of the merged
profile read the payload's last write when there is one, and every other
cell is unchanged. -/
theorem add_profile_lookup {pid : String} :
    ∀ (rows : List Row) (st st' : State),
      add_genetic_profile st pid rows = .ok st' →
      ∀ c g k, alookup3 st'.cases c g k =
        if k = pid then (writeVal rows c g).or (alookup3 st.cases c g k)
        else alookup3 st.cases c g k := by
  intro rows
  induction rows with
  | nil =>
      intro st st' h c g k
      rw [add_genetic_profile, List.foldlM_nil] at h
      simp only [pure, Except.pure, Except.ok.injEq] at h
      subst h
      simp [writeVal]
  | cons row rest ih =>
      intro st st' h c g k
      rw [add_genetic_profile, List.foldlM_cons] at h
      obtain ⟨st1, h1, h2⟩ := exceptBind_ok h
      obtain ⟨gene, hcm, hst1⟩ := add_row_ok h1
      have hrest := ih st1 st' h2 c g k
      have hst1l : alookup3 st1.cases c g k =
          if g = gene ∧ k = pid then
            (rowWrite row c).or (alookup3 st.cases c g k)
          else alookup3 st.cases c g k := by
        rw [hst1]
        exact row_foldl_lookup pid gene c g k row st
      have hw : writeVal (row :: rest) c g =
          (writeVal rest c g).or
            (if alookup row "COMMON" = some g then rowWrite row c
             else none) := by
        rw [writeVal, List.foldl_cons]
        by_cases hq : alookup row "COMMON" = some g
        · rw [if_pos hq, if_pos hq, Option.or_none]
          exact writeVal_fold_or c g rest _
        · rw [if_neg hq, if_neg hq, writeVal_fold_or c g rest none]
      rw [hrest, hst1l, hw]
      by_cases hk : k = pid
      · rw [if_pos hk, if_pos hk]
        by_cases hgg : g = gene
        · rw [if_pos ⟨hgg, hk⟩, if_pos (by rw [hcm, hgg]),
            Option.or_assoc]
        · rw [if_neg (fun hp => hgg hp.1),
            if_neg (fun hq => hgg (by
              rw [hcm] at hq
              exact ((Option.some.injEq _ _).mp hq).symm)),
            Option.or_none]
      · rw [if_neg hk, if_neg hk, if_neg (fun hp => hk hp.2)]

/-- A successful merge means every row of the payload had a `COMMON`
field. -/
theorem add_profile_common :
    ∀ (rows : List Row) (st st' : State) (pid : String),
      add_genetic_profile st pid rows = .ok st' →
      ∀ row ∈ rows, (alookup row "COMMON").isSome := by
  intro rows
  induction rows with
  | nil => intro st st' pid h row hr; cases hr
  | cons r rest ih =>
      intro st st' pid h row hr
      rw [add_genetic_profile, List.foldlM_cons] at h
      obtain ⟨st1, h1, h2⟩ := exceptBind_ok h
      cases hr with
      | head =>
          obtain ⟨gene, hcm, _⟩ := add_row_ok h1
          rw [hcm]
          rfl
      | tail _ hr2 => exact ih st1 st' pid h2 row hr2

/-- A payload whose rows all carry a `COMMON` field merges successfully
into any state. -/
theorem add_profile_ok :
    ∀ (rows : List Row) (st : State) (pid : String),
      (∀ row ∈ rows, (alookup row "COMMON").isSome) →
      ∃ st', add_genetic_profile st pid rows = .ok st' := by
  intro rows
  induction rows with
  | nil =>
      intro st pid _
      exact ⟨st, by rw [add_genetic_profile, List.foldlM_nil]; rfl⟩
  | cons r rest ih =>
      intro st pid h
      have hr : (alookup r "COMMON").isSome := h r (by simp)
      obtain ⟨gene, hg⟩ := Option.isSome_iff_exists.mp hr
      have hrow : add_row st pid r = .ok (r.foldl (fun s fv =>
          if fv.1 ∈ meta_data_fields then
            { s with gene_meta_data := aset2 s.gene_meta_data gene fv.1 fv.2 }
          else
            { s with cases := aset3 s.cases fv.1 gene pid fv.2 }) st) := by
        rw [add_row, pyGet, hg]
        simp [bind, Except.bind, pure, Except.pure]
      obtain ⟨st2, h2⟩ := ih _ pid (fun row hrm => h row (by simp [hrm]))
      refine ⟨st2, ?_⟩
      rw [add_genetic_profile, List.foldlM_cons, hrow]
      simp only [bind, Except.bind]
      exact h2

/-- Claim C7: merging the two parsed profile payloads in either order
yields the same final case matrix: if the copy number payload and then the
mutation payload merge successfully, the opposite order also succeeds and
every cell `cases[case][gene][profile]` of the two results agrees (the
embedding's reading of Python dictionary equality). -/
theorem merge_order_commutes (st : State) (pA pB : List Row) (s1 s2 : State)
    (h1 : add_genetic_profile st "gbm_tcga_gistic" pA = .ok s1)
    (h2 : add_genetic_profile s1 "gbm_tcga_mutations" pB = .ok s2) :
    ∃ t1 t2, add_genetic_profile st "gbm_tcga_mutations" pB = .ok t1 ∧
      add_genetic_profile t1 "gbm_tcga_gistic" pA = .ok t2 ∧
      ∀ c g k, alookup3 s2.cases c g k = alookup3 t2.cases c g k := by
  obtain ⟨t1, ht1⟩ :=
    add_profile_ok pB st "gbm_tcga_mutations"
      (add_profile_common pB s1 s2 "gbm_tcga_mutations" h2)
  obtain ⟨t2, ht2⟩ :=
    add_profile_ok pA t1 "gbm_tcga_gistic"
      (add_profile_common pA st s1 "gbm_tcga_gistic" h1)
  refine ⟨t1, t2, ht1, ht2, ?_⟩
  intro c g k
  rw [add_profile_lookup pB s1 s2 h2 c g k,
    add_profile_lookup pA st s1 h1 c g k,
    add_profile_lookup pA t1 t2 ht2 c g k,
    add_profile_lookup pB st t1 ht1 c g k]
  by_cases hk1 : k = "gbm_tcga_mutations"
  · have hk2 : ¬ k = "gbm_tcga_gistic" := by rw [hk1]; decide
    rw [if_pos hk1, if_pos hk1, if_neg hk2, if_neg hk2]
  · rw [if_neg hk1, if_neg hk1]

/-- Witness for C7: the spec's own scenario, one copy number row and one
mutation row for the same gene and two cases. -/
theorem merge_order_commutes_witness :
    add_genetic_profile ⟨[], [], []⟩ "gbm_tcga_gistic"
        [[("COMMON", "TP53"), ("GENE_ID", "7157"), ("CASE_A", "2"),
          ("CASE_B", "NaN")]] =
      .ok ⟨[("CASE_A", [("TP53", [("gbm_tcga_gistic", "2")])]),
            ("CASE_B", [("TP53", [("gbm_tcga_gistic", "NaN")])])], [],
           [("TP53", [("COMMON", "TP53"), ("GENE_ID", "7157")])]⟩ ∧
    (∃ t1 t2,
      add_genetic_profile ⟨[], [], []⟩ "gbm_tcga_mutations"
          [[("COMMON", "TP53"), ("CASE_A", "MUT1"), ("CASE_B", "NaN")]] =
        .ok t1 ∧
      add_genetic_profile t1 "gbm_tcga_gistic"
          [[("COMMON", "TP53"), ("GENE_ID", "7157"), ("CASE_A", "2"),
            ("CASE_B", "NaN")]] = .ok t2 ∧
      ∀ c g k,
        alookup3
          (⟨[("CASE_A", [("TP53", [("gbm_tcga_gistic", "2"),
                                   ("gbm_tcga_mutations", "MUT1")])]),
             ("CASE_B", [("TP53", [("gbm_tcga_gistic", "NaN"),
                                   ("gbm_tcga_mutations", "NaN")])])], [],
            [("TP53", [("COMMON", "TP53"), ("GENE_ID", "7157")])]⟩ :
            State).cases c g k = alookup3 t2.cases c g k) :=
  ⟨by decide,
    merge_order_commutes ⟨[], [], []⟩
      [[("COMMON", "TP53"), ("GENE_ID", "7157"), ("CASE_A", "2"),
        ("CASE_B", "NaN")]]
      [[("COMMON", "TP53"), ("CASE_A", "MUT1"), ("CASE_B", "NaN")]]
      ⟨[("CASE_A", [("TP53", [("gbm_tcga_gistic", "2")])]),
        ("CASE_B", [("TP53", [("gbm_tcga_gistic", "NaN")])])], [],
       [("TP53", [("COMMON", "TP53"), ("GENE_ID", "7157")])]⟩
      ⟨[("CASE_A", [("TP53", [("gbm_tcga_gistic", "2"),
                              ("gbm_tcga_mutations", "MUT1")])]),
        ("CASE_B", [("TP53", [("gbm_tcga_gistic", "NaN"),
                              ("gbm_tcga_mutations", "NaN")])])], [],
       [("TP53", [("COMMON", "TP53"), ("GENE_ID", "7157")])]⟩
      (by decide) (by decide)⟩

/-- The field loop of a row never touches the shared `summary`. -/
theorem row_foldl_summary (pid gene : String) (row : Row) :
    ∀ (st : State),
      (row.foldl (fun s fv =>
        if fv.1 ∈ meta_data_fields then
          { s with gene_meta_data := aset2 s.gene_meta_data gene fv.1 fv.2 }
        else
          { s with cases := aset3 s.cases fv.1 gene pid fv.2 }) st).summary =
      st.summary := by
  induction row with
  | nil => intro st; rfl
  | cons fv rest ih =>
      intro st
      rw [List.foldl_cons, ih]
      by_cases h : fv.1 ∈ meta_data_fields
      · rw [if_pos h]
      · rw [if_neg h]

/-- Merging a payload never touches the shared `summary`. -/
theorem add_profile_summary :
    ∀ (rows : List Row) (st st' : State) (pid : String),
      add_genetic_profile st pid rows = .ok st' →
      st'.summary = st.summary := by
  intro rows
  induction rows with
  | nil =>
      intro st st' pid h
      rw [add_genetic_profile, List.foldlM_nil] at h
      simp only [pure, Except.pure, Except.ok.injEq] at h
      rw [← h]
  | cons r rest ih =>
      intro st st' pid h
      rw [add_genetic_profile, List.foldlM_cons] at h
      obtain ⟨st1, h1, h2⟩ := exceptBind_ok h
      obtain ⟨gene, hcm, hst1⟩ := add_row_ok h1
      rw [ih st1 st' pid h2, hst1, row_foldl_summary]

/-- Claim C10: the `cases`, `summary`, `gene_meta_data` dictionaries are
class-level state shared by all `CaseSet` instances, so a later constructor
call merges into the dictionaries already populated by an earlier one
rather than starting from an empty case matrix: every cell of the prior
case matrix that the new payloads do not write is still present afterwards,
every cell the new mutation payload writes lands in that same matrix, and
the previously computed summaries survive untouched. -/
theorem constructor_shares_state (st : State) (pg pm : List Row)
    (st' : State) (h : CaseSet.init st pg pm = .ok st') (c g : String) :
    (∀ k, writeVal pg c g = none → writeVal pm c g = none →
      alookup3 st'.cases c g k = alookup3 st.cases c g k) ∧
    (∀ v, writeVal pm c g = some v →
      alookup3 st'.cases c g "gbm_tcga_mutations" = some v) ∧
    st'.summary = st.summary := by
  rw [CaseSet.init] at h
  obtain ⟨s1, h1, h2⟩ := exceptBind_ok h
  refine ⟨?_, ?_, ?_⟩
  · intro k hpg hpm
    rw [add_profile_lookup pm s1 st' h2 c g k,
      add_profile_lookup pg st s1 h1 c g k, hpg, hpm]
    simp
  · intro v hpm
    rw [add_profile_lookup pm s1 st' h2 c g "gbm_tcga_mutations", hpm]
    simp [genetic_profiles]
  · rw [add_profile_summary pm s1 st' _ h2, add_profile_summary pg st s1 _ h1]

/-- Witness for C10: a state already holding one gene's data and one
summary record, extended by a second constructor call fetching a different
gene. -/
theorem constructor_shares_state_witness :
    CaseSet.init
        ⟨[("CASE_A", [("G1", [("gbm_tcga_gistic", "2")])])],
         [("G1", ⟨1, 0, 1, 0, ⟨1, 1⟩⟩)],
         [("G1", [("COMMON", "G1")])]⟩
        [[("COMMON", "G2"), ("CASE_A", "0")]]
        [[("COMMON", "G2"), ("CASE_A", "MUT1")]] =
      .ok ⟨[("CASE_A", [("G1", [("gbm_tcga_gistic", "2")]),
                        ("G2", [("gbm_tcga_gistic", "0"),
                                ("gbm_tcga_mutations", "MUT1")])])],
           [("G1", ⟨1, 0, 1, 0, ⟨1, 1⟩⟩)],
           [("G1", [("COMMON", "G1")]), ("G2", [("COMMON", "G2")])]⟩ ∧
    writeVal [[("COMMON", "G2"), ("CASE_A", "0")]] "CASE_A" "G1" = none ∧
    writeVal [[("COMMON", "G2"), ("CASE_A", "MUT1")]] "CASE_A" "G1" =
      none ∧
    alookup3
        (⟨[("CASE_A", [("G1", [("gbm_tcga_gistic", "2")]),
                       ("G2", [("gbm_tcga_gistic", "0"),
                               ("gbm_tcga_mutations", "MUT1")])])],
          [("G1", ⟨1, 0, 1, 0, ⟨1, 1⟩⟩)],
          [("G1", [("COMMON", "G1")]), ("G2", [("COMMON", "G2")])]⟩ :
          State).cases "CASE_A" "G1" "gbm_tcga_gistic" =
      alookup3
        (⟨[("CASE_A", [("G1", [("gbm_tcga_gistic", "2")])])],
          [("G1", ⟨1, 0, 1, 0, ⟨1, 1⟩⟩)],
          [("G1", [("COMMON", "G1")])]⟩ : State).cases
        "CASE_A" "G1" "gbm_tcga_gistic" :=
  ⟨by decide, by decide, by decide,
    (constructor_shares_state
      ⟨[("CASE_A", [("G1", [("gbm_tcga_gistic", "2")])])],
       [("G1", ⟨1, 0, 1, 0, ⟨1, 1⟩⟩)],
       [("G1", [("COMMON", "G1")])]⟩
      [[("COMMON", "G2"), ("CASE_A", "0")]]
      [[("COMMON", "G2"), ("CASE_A", "MUT1")]]
      ⟨[("CASE_A", [("G1", [("gbm_tcga_gistic", "2")]),
                    ("G2", [("gbm_tcga_gistic", "0"),
                            ("gbm_tcga_mutations", "MUT1")])])],
       [("G1", ⟨1, 0, 1, 0, ⟨1, 1⟩⟩)],
       [("G1", [("COMMON", "G1")]), ("G2", [("COMMON", "G2")])]⟩
      (by decide) "CASE_A" "G1").1 "gbm_tcga_gistic" (by decide)
      (by decide)⟩

/-- Invariant of the gene loop of `set_summary`: the record stored for the
gene at position `ki` carries the counters obtained by folding the
per-gene tally over the whole prefix of genes up to and including it. -/
theorem summary_fold_prefix {cs : PyDict CaseVal} {total : Nat} :
    ∀ (l : PyDict (PyDict String)) (acc res : Counters × PyDict GeneSummary),
      l.foldlM (summary_step cs total) acc = .ok res →
      (akeys l).Nodup →
      ∀ (ki : Nat) (hki : ki < (akeys l).length) (s : GeneSummary),
        alookup res.2 ((akeys l).get ⟨ki, hki⟩) = some s →
        ∃ c : Counters,
          ((akeys l).take (ki+1)).foldlM
            (fun a g => tally_gene cs g a) acc.1 = .ok c ∧
          s.total_case_count = total ∧
          s.mutated_case_count = c.mutated ∧
          s.copy_no_alteration_case_count = c.cna ∧
          s.multiple_alterations_case_count = c.multi := by
  intro l
  induction l with
  | nil =>
      intro acc res h hnd ki hki
      simp [akeys] at hki
  | cons e rest ih =>
      intro acc res h hnd ki hki s hs
      rw [List.foldlM_cons] at h
      obtain ⟨acc1, h1, h2⟩ := exceptBind_ok h
      obtain ⟨c0, hc0, hne, hres⟩ := summary_step_ok h1
      have hnd2 : (akeys rest).Nodup := by
        simp [akeys] at hnd
        exact hnd.2
      have hmem : ¬ e.1 ∈ akeys rest := by
        simp [akeys] at hnd ⊢
        exact hnd.1
      cases ki with
      | zero =>
          have hkey : (akeys (e :: rest)).get ⟨0, hki⟩ = e.1 := rfl
          rw [hkey, summary_fold_frame rest acc1 res h2 hmem, hres,
            alookup_aset_self] at hs
          have hseq := (Option.some.injEq _ _).mp hs
          refine ⟨c0, ?_, ?_, ?_, ?_, ?_⟩
          · have htake : (akeys (e :: rest)).take 1 = [e.1] := rfl
            rw [htake]
            simp only [List.foldlM_cons, List.foldlM_nil]
            rw [hc0]
            rfl
          · rw [← hseq]
          · rw [← hseq]
          · rw [← hseq]
          · rw [← hseq]
      | succ kj =>
          have hki2 : kj < (akeys rest).length := by
            simpa [akeys] using hki
          have hkey : (akeys (e :: rest)).get ⟨kj+1, hki⟩ =
              (akeys rest).get ⟨kj, hki2⟩ := rfl
          rw [hkey] at hs
          obtain ⟨c, hcf, hfields⟩ := ih acc1 res h2 hnd2 kj hki2 s hs
          refine ⟨c, ?_, hfields⟩
          have htake : (akeys (e :: rest)).take (kj+1+1) =
              e.1 :: (akeys rest).take (kj+1) := rfl
          rw [htake]
          simp only [List.foldlM_cons]
          rw [hc0]
          have hacc1 : acc1.1 = c0 := by rw [hres]
          rw [← hacc1]
          simpa [bind, Except.bind] using hcf

/-- Claim C9: the three counters are initialized once before the gene loop
and never reset between genes, so for a case matrix with at least two
genes, the counts stored in the summary for the gene at position `ki` of
the iteration order are the totals accumulated by tallying that gene
together with all earlier genes (the fold of the per-gene tally over the
whole prefix, started from zero). -/
theorem counts_accumulate_across_genes (st st' : State)
    (h : set_summary st = .ok st')
    (hnd : (akeys st.gene_meta_data).Nodup)
    (hlen : 2 ≤ st.gene_meta_data.length)
    (ki : Nat) (hki : ki < (akeys st.gene_meta_data).length)
    (s : GeneSummary)
    (hs : alookup st'.summary ((akeys st.gene_meta_data).get ⟨ki, hki⟩) =
      some s) :
    ∃ c : Counters,
      ((akeys st.gene_meta_data).take (ki+1)).foldlM
        (fun a g => tally_gene st.cases g a) ⟨0, 0, 0⟩ = .ok c ∧
      s.mutated_case_count = c.mutated ∧
      s.copy_no_alteration_case_count = c.cna ∧
      s.multiple_alterations_case_count = c.multi := by
  rw [set_summary] at h
  obtain ⟨res, hres, h⟩ := exceptBind_ok h
  simp only [pure, Except.pure, Except.ok.injEq] at h
  subst h
  obtain ⟨c, hc, _, h1, h2, h3⟩ :=
    summary_fold_prefix st.gene_meta_data (⟨0, 0, 0⟩, st.summary) res hres
      hnd ki hki s hs
  exact ⟨c, hc, h1, h2, h3⟩

/-- Concrete run for the C9 witness: one case, two genes, both
copy-number altered. -/
def exStC9 : State :=
  ⟨[("c1", [("g1", [("gbm_tcga_gistic", "2")]),
            ("g2", [("gbm_tcga_gistic", "2")])])], [],
   [("g1", []), ("g2", [])]⟩

/-- The summarized state of `exStC9`: the second gene's stored count is
`2`, one alteration from `g1` plus one from `g2`. -/
def exStC9out : State :=
  ⟨[("c1", [("g1", [("gbm_tcga_gistic", "2")]),
            ("g2", [("gbm_tcga_gistic", "2")])])],
   [("g1", ⟨1, 0, 1, 0, ⟨1, 1⟩⟩), ("g2", ⟨1, 0, 2, 0, ⟨2, 1⟩⟩)],
   [("g1", []), ("g2", [])]⟩

/-- Witness for C9 at a concrete run with two genes and one case. -/
theorem counts_accumulate_across_genes_witness :
    set_summary exStC9 = .ok exStC9out ∧
    (akeys exStC9.gene_meta_data).Nodup ∧
    2 ≤ exStC9.gene_meta_data.length ∧
    (1 : Nat) < (akeys exStC9.gene_meta_data).length ∧
    alookup exStC9out.summary "g2" = some ⟨1, 0, 2, 0, ⟨2, 1⟩⟩ ∧
    (∃ c : Counters,
      ((akeys exStC9.gene_meta_data).take 2).foldlM
        (fun a g => tally_gene exStC9.cases g a) ⟨0, 0, 0⟩ = .ok c ∧
      (⟨1, 0, 2, 0, ⟨2, 1⟩⟩ : GeneSummary).mutated_case_count = c.mutated ∧
      (⟨1, 0, 2, 0, ⟨2, 1⟩⟩ : GeneSummary).copy_no_alteration_case_count =
        c.cna ∧
      (⟨1, 0, 2, 0, ⟨2, 1⟩⟩ : GeneSummary).multiple_alterations_case_count =
        c.multi) :=
  ⟨by decide, by decide, by decide, by decide, by decide,
    counts_accumulate_across_genes exStC9 exStC9out (by decide) (by decide)
      (by decide) 1 (by decide) ⟨1, 0, 2, 0, ⟨2, 1⟩⟩ (by decide)⟩
